import Mathlib

/-!
The gripper motion profiler of denso_cobotta_gripper and its control loop.

A shallow embedding of `denso_cobotta_gripper.cpp`.  Doubles are modelled by
rationals (exact arithmetic), the data members of the C++ class by the fields
of a record, and every member function by a pure function on that record.
The answers of the device (`ioctl` return value, encoder count, result code) and
the outcome of `try_lock` are arguments of the functions that consume them.
-/

namespace denso_cobotta_gripper

/-- The constants the source takes from its headers (`denso_cobotta_gripper.h`,
`cobotta_common.h`), which are not part of the translated file: they are
parameters of the development.  `period` stands for `getPeriod().toSec()`. -/
structure Config where
  MIN_POSITION : ℚ
  MAX_POSITION : ℚ
  MIN_SPEED : ℚ
  MAX_SPEED : ℚ
  MIN_EFFORT : ℚ
  MAX_EFFORT : ℚ
  MAX_VELOCITY : ℚ
  MAX_ACCELERATION : ℚ
  period : ℚ
  COEFF_OUTPOS_TO_PULSE : ℚ

/-- The data members of class `DensoCobottaGripper` that the translated functions
read or write. -/
structure DensoCobottaGripper where
  current_position_ : ℚ
  start_position_ : ℚ
  current_target_position_ : ℚ
  current_cmd_position_ : ℚ
  current_cmd_velocity_ : ℚ
  current_speed_ : ℚ
  current_effort_ : ℚ
  move_complete_ : Bool
  motor_on_ : Bool
  deriving DecidableEq

/-- `getEncoderData`: the `ioctl` answers `ret` and the encoder count; a non-zero
`ret` fails without touching the state, otherwise only `current_position_` is
written (the publication of the joint state is an output, not state). -/
def getEncoderData (c : Config) (ret : Int) (encoder : Int) (s : DensoCobottaGripper) :
    Bool × DensoCobottaGripper :=
  if ret ≠ 0 then (false, s)
  else (true, { s with current_position_ := (encoder : ℚ) / c.COEFF_OUTPOS_TO_PULSE })

/-- The member function `initialize` (the word is reserved here, hence the
shorter name): `fd` is the answer of `open`, `ret` and `encoder` the answer of the
first encoder read.  `s` is the object as the constructor left it. -/
def init (c : Config) (fd : Int) (ret : Int) (encoder : Int) (s : DensoCobottaGripper) :
    Bool × DensoCobottaGripper :=
  let s0 := { s with motor_on_ := false }
  if fd < 0 then (false, s0)
  else
    let r := getEncoderData c ret encoder s0
    if !r.1 then (false, r.2)
    else
      let s1 := r.2
      let s2 := { s1 with start_position_ := s1.current_position_ }
      let s3 := { s2 with current_target_position_ := s2.start_position_ }
      let s4 := { s3 with current_cmd_position_ := s3.start_position_ }
      (true, { s4 with current_cmd_velocity_ := 0, current_speed_ := 0, move_complete_ := true })

/-- `gripperMove`: three range checks, each returning `false` before anything is
written, then the block that stores the goal. -/
def gripperMove (c : Config) (target_position speed effort : ℚ) (s : DensoCobottaGripper) :
    Bool × DensoCobottaGripper :=
  if target_position < c.MIN_POSITION ∨ target_position > c.MAX_POSITION then (false, s)
  else if speed < c.MIN_SPEED ∨ speed > c.MAX_SPEED then (false, s)
  else if effort < c.MIN_EFFORT ∨ effort > c.MAX_EFFORT then (false, s)
  else
    let s1 := { s with start_position_ := s.current_position_ }
    let s2 := { s1 with current_speed_ := speed, current_effort_ := effort }
    let s3 := { s2 with current_cmd_position_ := s2.start_position_ }
    (true, { s3 with current_target_position_ := target_position, move_complete_ := false })

/-- `gripperStop`: writes `current_speed_` and `move_complete_`, nothing else. -/
def gripperStop (s : DensoCobottaGripper) : Bool × DensoCobottaGripper :=
  (true, { s with current_speed_ := 0, move_complete_ := true })

/-- Local `vel_max` of `setGripperCommand` (`0.01` is the exact hundredth). -/
def vel_max (c : Config) (s : DensoCobottaGripper) : ℚ :=
  c.MAX_VELOCITY * s.current_speed_ * (1 / 100)

/-- Local `direction` of `setGripperCommand`. -/
def direction (s : DensoCobottaGripper) : ℚ :=
  if s.current_target_position_ - s.start_position_ ≥ 0 then 1 else -1

/-- Local `cmd_vel_increment` of `setGripperCommand`. -/
def cmd_vel_increment (c : Config) : ℚ :=
  c.MAX_ACCELERATION * c.period

/-- Local `slowdown_length` of `setGripperCommand`. -/
def slowdown_length (c : Config) (s : DensoCobottaGripper) : ℚ :=
  s.current_cmd_velocity_ ^ 2 * (1 / 2) / c.MAX_ACCELERATION

/-- Local `position_error` of `setGripperCommand`. -/
def position_error (s : DensoCobottaGripper) : ℚ :=
  |s.current_target_position_ - s.current_cmd_position_|

/-- Local `target_velocity` of `setGripperCommand`. -/
def target_velocity (c : Config) (s : DensoCobottaGripper) : ℚ :=
  if position_error s ≥ slowdown_length c s then direction s * vel_max c s
  else direction s * cmd_vel_increment c

/-- The value of `current_cmd_velocity_` after the ramp of lines 257-272. -/
def rampVelocity (c : Config) (s : DensoCobottaGripper) : ℚ :=
  if s.current_cmd_velocity_ < target_velocity c s then
    (if s.current_cmd_velocity_ + cmd_vel_increment c > target_velocity c s
      then target_velocity c s
      else s.current_cmd_velocity_ + cmd_vel_increment c)
  else if s.current_cmd_velocity_ > target_velocity c s then
    (if s.current_cmd_velocity_ - cmd_vel_increment c < target_velocity c s
      then target_velocity c s
      else s.current_cmd_velocity_ - cmd_vel_increment c)
  else s.current_cmd_velocity_

/-- The value of `current_cmd_position_` after the integration and the half-step
correction of lines 274-285. -/
def integratePosition (c : Config) (s : DensoCobottaGripper) : ℚ :=
  let p := s.current_cmd_position_ + rampVelocity c s * c.period
  if rampVelocity c s ≠ target_velocity c s then
    (if rampVelocity c s ≤ target_velocity c s
      then p - cmd_vel_increment c * c.period * (1 / 2)
      else p + cmd_vel_increment c * c.period * (1 / 2))
  else p

/-- The body of `setGripperCommand` once `try_lock` has succeeded. -/
def setGripperCommandLocked (c : Config) (s : DensoCobottaGripper) : DensoCobottaGripper :=
  if (direction s ≥ 0 ∧ integratePosition c s ≥ s.current_target_position_) ∨
      (direction s < 0 ∧ integratePosition c s ≤ s.current_target_position_) then
    { s with current_cmd_velocity_ := 0,
             current_cmd_position_ := s.current_target_position_,
             move_complete_ := true }
  else
    { s with current_cmd_velocity_ := rampVelocity c s,
             current_cmd_position_ := integratePosition c s,
             move_complete_ := false }

/-- `setGripperCommand`: `acquired` is the answer of `gripper_mtx_.try_lock()`; the
function returns `true` either way. -/
def setGripperCommand (c : Config) (acquired : Bool) (s : DensoCobottaGripper) :
    Bool × DensoCobottaGripper :=
  if acquired then (true, setGripperCommandLocked c s) else (true, s)

/-- `setServoUpdateData`: the profiler step, then the write transaction, whose
`ioctl` return value is `ret` and whose `Recv.Result` is `result`.  The frame sent
and the 8 ms sleep of the second branch are outputs and leave the state alone. -/
def setServoUpdateData (c : Config) (acquired : Bool) (ret : Int) (result : Int)
    (s : DensoCobottaGripper) : Bool × DensoCobottaGripper :=
  let s1 := (setGripperCommand c acquired s).2
  if ret ≠ 0 then (false, s1)
  else if result = 0 then (true, s1)
  else if result = 0x0F408101 then (true, s1)
  else (false, s1)

/-- `Read`. -/
def Read (c : Config) (ret : Int) (encoder : Int) (s : DensoCobottaGripper) :
    Bool × DensoCobottaGripper :=
  getEncoderData c ret encoder s

/-- `Write`. -/
def Write (c : Config) (acquired : Bool) (ret : Int) (result : Int) (s : DensoCobottaGripper) :
    Bool × DensoCobottaGripper :=
  setServoUpdateData c acquired ret result s

/-- `isMotorOn`. -/
def isMotorOn (s : DensoCobottaGripper) : Bool :=
  s.motor_on_

/-- `subRobotStateCB`: two state codes are recognised. -/
def subRobotStateCB (state_code : Int) (s : DensoCobottaGripper) : DensoCobottaGripper :=
  if state_code = 0x0f200201 then { s with motor_on_ := true }
  else if state_code = 0x0f200202 then { s with motor_on_ := false }
  else s

/-- What one pass through the body of the `while (ros::ok())` loop of `main` does:
either `main` returns with a status, or the loop goes round again. -/
inductive CycleResult where
  | exited (status : Int)
  | continued (s : DensoCobottaGripper)
  deriving DecidableEq

/-- One pass through the body of the loop of `main` (lines 43-60), entered while
`ros::ok()` holds.  `read_ret` and `encoder` answer the read transaction,
`write_ret` and `result` the write transaction, `acquired` the `try_lock` of the
profiler.  The sleeps at the end of a pass take time and change no state. -/
def mainLoopBody (c : Config) (read_ret : Int) (encoder : Int) (acquired : Bool)
    (write_ret : Int) (result : Int) (s : DensoCobottaGripper) : CycleResult :=
  let r := Read c read_ret encoder s
  if !r.1 then CycleResult.exited 1
  else if !isMotorOn r.2 then CycleResult.continued r.2
  else
    let w := Write c acquired write_ret result r.2
    if !w.1 then CycleResult.exited 1
    else CycleResult.continued w.2

/-- The calls that reach the gripper object between two observations: a successful
feedback read, a `gripperMove` request, a `gripperStop` request, a profiler step. -/
inductive Op where
  | feedback (encoder : Int)
  | move (target_position speed effort : ℚ)
  | stop
  | profile (acquired : Bool)
  deriving DecidableEq

/-- The state after one call. -/
def applyOp (c : Config) (op : Op) (s : DensoCobottaGripper) : DensoCobottaGripper :=
  match op with
  | Op.feedback encoder => (getEncoderData c 0 encoder s).2
  | Op.move t sp e => (gripperMove c t sp e s).2
  | Op.stop => (gripperStop s).2
  | Op.profile acquired => (setGripperCommand c acquired s).2

/-- The state after a sequence of calls, first call first. -/
def run (c : Config) (ops : List Op) (s : DensoCobottaGripper) : DensoCobottaGripper :=
  ops.foldl (fun st op => applyOp c op st) s

/-- The state after `n` profiler steps that all took the lock. -/
def profilerSteps (c : Config) (n : Nat) (s : DensoCobottaGripper) : DensoCobottaGripper :=
  (setGripperCommandLocked c)^[n] s

/-- The constants of the spec's scenario A: maximum velocity 5, maximum
acceleration 25, period 0.1; positions in [0, 30], speed and effort in percent. -/
def scenarioConfig : Config :=
  { MIN_POSITION := 0, MAX_POSITION := 30, MIN_SPEED := 1, MAX_SPEED := 100,
    MIN_EFFORT := 6, MAX_EFFORT := 20, MAX_VELOCITY := 5, MAX_ACCELERATION := 25,
    period := 1 / 10, COEFF_OUTPOS_TO_PULSE := 1 }

/-- The object as the constructor leaves it (`current_position_(0.0)`,
`current_effort_(20.0)`), the members it does not set taken as zero. -/
def constructed : DensoCobottaGripper :=
  { current_position_ := 0, start_position_ := 0, current_target_position_ := 0,
    current_cmd_position_ := 0, current_cmd_velocity_ := 0, current_speed_ := 0,
    current_effort_ := 20, move_complete_ := false, motor_on_ := false }

/-- The state `init` sets up when the device opens and the first encoder
read answers 0. -/
def initialState : DensoCobottaGripper :=
  (init scenarioConfig 3 0 0 constructed).2

/-- The least advance of the commanded position in one step of a forward move. -/
def stepAdvance (c : Config) (s : DensoCobottaGripper) : ℚ :=
  min (vel_max c s * c.period) (cmd_vel_increment c * c.period * (1 / 2))

/-- The state seen in a mirror: every position and the velocity change sign. -/
def mirror (s : DensoCobottaGripper) : DensoCobottaGripper :=
  { s with current_position_ := -s.current_position_,
           start_position_ := -s.start_position_,
           current_target_position_ := -s.current_target_position_,
           current_cmd_position_ := -s.current_cmd_position_,
           current_cmd_velocity_ := -s.current_cmd_velocity_ }

/-- The move is on course: the commanded velocity points along the direction of
the move and is at most `vel_max`, and the commanded position has not passed the
target. -/
def OnCourse (c : Config) (s : DensoCobottaGripper) : Prop :=
  0 ≤ direction s * s.current_cmd_velocity_ ∧
  direction s * s.current_cmd_velocity_ ≤ vel_max c s ∧
  0 ≤ direction s * (s.current_target_position_ - s.current_cmd_position_)

/-- The invariant the spec attaches to the gripper state: a completed move has
zero commanded velocity and its commanded position on the target. -/
def CompleteIsSettled (s : DensoCobottaGripper) : Prop :=
  s.move_complete_ = true →
    s.current_cmd_velocity_ = 0 ∧ s.current_cmd_position_ = s.current_target_position_

/-- The condition under which a call is issued at rest: a `gripperMove` that is
accepted, and a `gripperStop`, find the commanded velocity at zero, and an
accepted speed is not negative.  Reads and profiler steps carry no condition. -/
def atRest (c : Config) (op : Op) (s : DensoCobottaGripper) : Prop :=
  match op with
  | Op.move t sp e =>
      (gripperMove c t sp e s).1 = true → s.current_cmd_velocity_ = 0 ∧ 0 ≤ sp
  | Op.stop => s.current_cmd_velocity_ = 0
  | Op.feedback _ => True
  | Op.profile _ => True

/-- Every call of the sequence is issued at rest, each in the state the calls
before it have produced. -/
def issuedAtRest (c : Config) (ops : List Op) (s : DensoCobottaGripper) : Prop :=
  match ops with
  | [] => True
  | op :: rest => atRest c op s ∧ issuedAtRest c rest (applyOp c op s)

instance decCompleteIsSettled (s : DensoCobottaGripper) : Decidable (CompleteIsSettled s) :=
  inferInstanceAs (Decidable (s.move_complete_ = true →
    s.current_cmd_velocity_ = 0 ∧ s.current_cmd_position_ = s.current_target_position_))

instance decOnCourse (c : Config) (s : DensoCobottaGripper) : Decidable (OnCourse c s) :=
  inferInstanceAs (Decidable (0 ≤ direction s * s.current_cmd_velocity_ ∧
    direction s * s.current_cmd_velocity_ ≤ vel_max c s ∧
    0 ≤ direction s * (s.current_target_position_ - s.current_cmd_position_)))

instance decAtRest (c : Config) (op : Op) (s : DensoCobottaGripper) :
    Decidable (atRest c op s) :=
  match op with
  | Op.move t sp e => inferInstanceAs (Decidable
      ((gripperMove c t sp e s).1 = true → s.current_cmd_velocity_ = 0 ∧ 0 ≤ sp))
  | Op.stop => inferInstanceAs (Decidable (s.current_cmd_velocity_ = 0))
  | Op.feedback _ => isTrue trivial
  | Op.profile _ => isTrue trivial

instance decIssuedAtRest (c : Config) (ops : List Op) (s : DensoCobottaGripper) :
    Decidable (issuedAtRest c ops s) :=
  match ops with
  | [] => isTrue trivial
  | op :: rest =>
    have := decIssuedAtRest c rest (applyOp c op s)
    inferInstanceAs (Decidable (atRest c op s ∧ issuedAtRest c rest (applyOp c op s)))

/-- Calls that carry no request: feedback reads and profiler steps. -/
def isQuiet (op : Op) : Bool :=
  match op with
  | Op.feedback _ => true
  | Op.profile _ => true
  | Op.move _ _ _ => false
  | Op.stop => false

/-- A state reached in scenario A: a move to 10 accepted at rest, one profiler
step (commanded velocity 5/2), then a feedback read of position 20. -/
def movingState : DensoCobottaGripper :=
  run scenarioConfig [Op.move 10 100 20, Op.profile true, Op.feedback 20] initialState

/-- A settled state of a move downwards, from 1 to 0, at speed 100. -/
def settledBelow : DensoCobottaGripper :=
  { current_position_ := 0, start_position_ := 1, current_target_position_ := 0,
    current_cmd_position_ := 0, current_cmd_velocity_ := 0, current_speed_ := 100,
    current_effort_ := 20, move_complete_ := true, motor_on_ := true }

/-- A value of the C++ type `double` as far as comparisons see it: not-a-number,
the two infinities, or a finite value (taken from the rationals). -/
inductive Double where
  | nan
  | negInf
  | posInf
  | finite (q : ℚ)
  deriving DecidableEq

/-- The operator `<` on doubles: false as soon as one side is not-a-number. -/
def Double.lt (a b : Double) : Bool :=
  match a, b with
  | Double.nan, _ => false
  | _, Double.nan => false
  | Double.posInf, _ => false
  | _, Double.negInf => false
  | Double.negInf, _ => true
  | _, Double.posInf => true
  | Double.finite x, Double.finite y => decide (x < y)

/-- The operator `<=` on doubles: false as soon as one side is not-a-number. -/
def Double.le (a b : Double) : Bool :=
  match a, b with
  | Double.nan, _ => false
  | _, Double.nan => false
  | Double.negInf, _ => true
  | _, Double.posInf => true
  | Double.posInf, _ => false
  | _, Double.negInf => false
  | Double.finite x, Double.finite y => decide (x ≤ y)

/-- The value lies in the closed range from `lo` to `hi`. -/
def Double.inRange (lo hi : ℚ) (x : Double) : Bool :=
  Double.le (Double.finite lo) x && Double.le x (Double.finite hi)

/-- The data members of class `DensoCobottaGripper` with every `double` member
carried as a `Double`, so that a member can hold not-a-number. -/
structure GripperDouble where
  current_position_ : Double
  start_position_ : Double
  current_target_position_ : Double
  current_cmd_position_ : Double
  current_cmd_velocity_ : Double
  current_speed_ : Double
  current_effort_ : Double
  move_complete_ : Bool
  motor_on_ : Bool
  deriving DecidableEq

/-- A state of exact values seen as a state of doubles. -/
def toDouble (s : DensoCobottaGripper) : GripperDouble :=
  { current_position_ := Double.finite s.current_position_,
    start_position_ := Double.finite s.start_position_,
    current_target_position_ := Double.finite s.current_target_position_,
    current_cmd_position_ := Double.finite s.current_cmd_position_,
    current_cmd_velocity_ := Double.finite s.current_cmd_velocity_,
    current_speed_ := Double.finite s.current_speed_,
    current_effort_ := Double.finite s.current_effort_,
    move_complete_ := s.move_complete_,
    motor_on_ := s.motor_on_ }

/-- `gripperMove` (lines 183-217) with its three `double` arguments as the caller
can pass them, not-a-number included.  The function compares and assigns and does
no arithmetic; `a > b` is `b < a`.  The constants are finite. -/
def gripperMoveDouble (c : Config) (target_position speed effort : Double) (s : GripperDouble) :
    Bool × GripperDouble :=
  if Double.lt target_position (Double.finite c.MIN_POSITION) ||
      Double.lt (Double.finite c.MAX_POSITION) target_position then (false, s)
  else if Double.lt speed (Double.finite c.MIN_SPEED) ||
      Double.lt (Double.finite c.MAX_SPEED) speed then (false, s)
  else if Double.lt effort (Double.finite c.MIN_EFFORT) ||
      Double.lt (Double.finite c.MAX_EFFORT) effort then (false, s)
  else
    let s1 := { s with start_position_ := s.current_position_ }
    let s2 := { s1 with current_speed_ := speed, current_effort_ := effort }
    let s3 := { s2 with current_cmd_position_ := s2.start_position_ }
    (true, { s3 with current_target_position_ := target_position, move_complete_ := false })

theorem direction_of_le (s : DensoCobottaGripper)
    (h : s.start_position_ ≤ s.current_target_position_) : direction s = 1 := by
  unfold direction
  rw [if_pos (by linarith)]

theorem direction_of_lt (s : DensoCobottaGripper)
    (h : s.current_target_position_ < s.start_position_) : direction s = -1 := by
  unfold direction
  rw [if_neg (by linarith)]

theorem slowdown_gt_iff (c : Config) (s : DensoCobottaGripper) (ha : 0 < c.MAX_ACCELERATION)
    (x : ℚ) :
    x < slowdown_length c s ↔ x * (2 * c.MAX_ACCELERATION) < s.current_cmd_velocity_ ^ 2 := by
  unfold slowdown_length
  rw [lt_div_iff₀ ha]
  constructor <;> intro h <;> linarith

/-- The ramp and the integration written with the target velocity as a plain
number: what `rampVelocity` is in each of its five branches. -/
theorem rampVelocity_cases (c : Config) (s : DensoCobottaGripper) (tv : ℚ)
    (htv : target_velocity c s = tv) :
    (s.current_cmd_velocity_ < tv ∧ tv < s.current_cmd_velocity_ + cmd_vel_increment c ∧
        rampVelocity c s = tv) ∨
    (s.current_cmd_velocity_ + cmd_vel_increment c ≤ tv ∧
        rampVelocity c s = s.current_cmd_velocity_ + cmd_vel_increment c) ∨
    (tv < s.current_cmd_velocity_ ∧ s.current_cmd_velocity_ - cmd_vel_increment c < tv ∧
        rampVelocity c s = tv) ∨
    (tv ≤ s.current_cmd_velocity_ - cmd_vel_increment c ∧
        rampVelocity c s = s.current_cmd_velocity_ - cmd_vel_increment c) ∨
    (s.current_cmd_velocity_ = tv ∧ rampVelocity c s = tv) := by
  unfold rampVelocity
  rw [htv]
  rcases lt_trichotomy s.current_cmd_velocity_ tv with h | h | h
  · rw [if_pos h]
    by_cases h2 : s.current_cmd_velocity_ + cmd_vel_increment c > tv
    · rw [if_pos h2]; exact Or.inl ⟨h, h2, rfl⟩
    · rw [if_neg h2]; exact Or.inr (Or.inl ⟨not_lt.1 h2, rfl⟩)
  · rw [if_neg (by linarith), if_neg (by linarith)]
    exact Or.inr (Or.inr (Or.inr (Or.inr ⟨h, h⟩)))
  · rw [if_neg (by linarith), if_pos h]
    by_cases h2 : s.current_cmd_velocity_ - cmd_vel_increment c < tv
    · rw [if_pos h2]; exact Or.inr (Or.inr (Or.inl ⟨h, h2, rfl⟩))
    · rw [if_neg h2]; exact Or.inr (Or.inr (Or.inr (Or.inl ⟨not_lt.1 h2, rfl⟩)))

/-- What `integratePosition` is, by the place of the ramped velocity against the
target velocity. -/
theorem integratePosition_cases (c : Config) (s : DensoCobottaGripper) :
    (rampVelocity c s = target_velocity c s ∧
      integratePosition c s = s.current_cmd_position_ + rampVelocity c s * c.period) ∨
    (rampVelocity c s < target_velocity c s ∧
      integratePosition c s = s.current_cmd_position_ + rampVelocity c s * c.period -
        cmd_vel_increment c * c.period * (1 / 2)) ∨
    (target_velocity c s < rampVelocity c s ∧
      integratePosition c s = s.current_cmd_position_ + rampVelocity c s * c.period +
        cmd_vel_increment c * c.period * (1 / 2)) := by
  unfold integratePosition
  rcases lt_trichotomy (rampVelocity c s) (target_velocity c s) with h | h | h
  · right; left
    refine ⟨h, ?_⟩
    simp only [if_pos (ne_of_lt h), if_pos (le_of_lt h)]
  · left
    refine ⟨h, ?_⟩
    simp only [if_neg (not_not.2 h)]
  · right; right
    refine ⟨h, ?_⟩
    simp only [if_pos (ne_of_gt h), if_neg (not_le.2 h)]

/-- One step of a move towards a target at or above the start, from a velocity
between 0 and `vel_max` and a position at or below the target: unless the step
reaches the target, the velocity stays between 0 and `vel_max` and the position
advances by at least `stepAdvance`. -/
theorem forward_step (c : Config) (s : DensoCobottaGripper)
    (ha : 0 < c.MAX_ACCELERATION) (hT : 0 < c.period)
    (hdir : s.start_position_ ≤ s.current_target_position_)
    (hv0 : 0 ≤ s.current_cmd_velocity_)
    (hv1 : s.current_cmd_velocity_ ≤ vel_max c s)
    (hp : s.current_cmd_position_ ≤ s.current_target_position_)
    (hnd : integratePosition c s < s.current_target_position_) :
    0 ≤ rampVelocity c s ∧ rampVelocity c s ≤ vel_max c s ∧
    s.current_cmd_position_ + stepAdvance c s ≤ integratePosition c s := by
  have hd := direction_of_le s hdir
  have hinc : 0 < cmd_vel_increment c := mul_pos ha hT
  have hincT : 0 < cmd_vel_increment c * c.period := mul_pos hinc hT
  have hvT : 0 ≤ s.current_cmd_velocity_ * c.period := mul_nonneg hv0 (le_of_lt hT)
  have hA1 : stepAdvance c s ≤ vel_max c s * c.period := min_le_left _ _
  have hA2 : stepAdvance c s ≤ cmd_vel_increment c * c.period * (1 / 2) := min_le_right _ _
  have herr : position_error s = s.current_target_position_ - s.current_cmd_position_ := by
    unfold position_error
    exact abs_of_nonneg (by linarith)
  by_cases hbr : position_error s ≥ slowdown_length c s
  · -- far from the target: the target velocity is `vel_max`
    have htv : target_velocity c s = vel_max c s := by
      unfold target_velocity
      rw [if_pos hbr, hd, one_mul]
    rcases rampVelocity_cases c s (vel_max c s) htv with
      ⟨_, _, hr⟩ | ⟨h1, hr⟩ | ⟨h1, _, _⟩ | ⟨h1, _⟩ | ⟨_, hr⟩
    · rcases integratePosition_cases c s with ⟨_, hi⟩ | ⟨h, _⟩ | ⟨h, _⟩
      · rw [hi, hr]; exact ⟨by linarith, le_refl _, by linarith⟩
      · rw [hr, htv] at h; exact absurd h (lt_irrefl _)
      · rw [hr, htv] at h; exact absurd h (lt_irrefl _)
    · rcases integratePosition_cases c s with ⟨_, hi⟩ | ⟨_, hi⟩ | ⟨h, _⟩
      · rw [hi, hr]; exact ⟨by linarith, h1, by linarith⟩
      · rw [hi, hr]; exact ⟨by linarith, h1, by linarith⟩
      · rw [hr, htv] at h; linarith
    · linarith
    · linarith
    · rcases integratePosition_cases c s with ⟨_, hi⟩ | ⟨h, _⟩ | ⟨h, _⟩
      · rw [hi, hr]; exact ⟨by linarith, le_refl _, by linarith⟩
      · rw [hr, htv] at h; exact absurd h (lt_irrefl _)
      · rw [hr, htv] at h; exact absurd h (lt_irrefl _)
  · -- inside the stopping distance: the target velocity is the increment
    have htv : target_velocity c s = cmd_vel_increment c := by
      unfold target_velocity
      rw [if_neg hbr, hd, one_mul]
    have hsl : (s.current_target_position_ - s.current_cmd_position_) *
        (2 * c.MAX_ACCELERATION) < s.current_cmd_velocity_ ^ 2 := by
      rw [← slowdown_gt_iff c s ha, ← herr]
      exact not_le.1 hbr
    have hincdef : cmd_vel_increment c = c.MAX_ACCELERATION * c.period := rfl
    -- a velocity at or below the increment cannot be inside its stopping distance
    -- without the step reaching the target
    have hreach : s.current_cmd_velocity_ ≤ cmd_vel_increment c →
        s.current_cmd_position_ + cmd_vel_increment c * c.period <
          s.current_target_position_ → False := by
      intro hle hlt
      have h1 : s.current_cmd_velocity_ ^ 2 ≤ cmd_vel_increment c ^ 2 :=
        pow_le_pow_left₀ hv0 hle 2
      have h2 : 0 < (s.current_target_position_ - s.current_cmd_position_ -
          cmd_vel_increment c * c.period) * (2 * c.MAX_ACCELERATION) :=
        mul_pos (by linarith) (by linarith)
      have h3 : 0 ≤ cmd_vel_increment c ^ 2 := sq_nonneg _
      rw [hincdef] at h1 h2 h3
      nlinarith
    rcases rampVelocity_cases c s (cmd_vel_increment c) htv with
      ⟨h1, _, hr⟩ | ⟨h1, _⟩ | ⟨h1, _, hr⟩ | ⟨h1, hr⟩ | ⟨h1, hr⟩
    · exfalso
      rcases integratePosition_cases c s with ⟨_, hi⟩ | ⟨h, _⟩ | ⟨h, _⟩
      · rw [hi, hr] at hnd; exact hreach (le_of_lt h1) hnd
      · rw [hr, htv] at h; exact absurd h (lt_irrefl _)
      · rw [hr, htv] at h; exact absurd h (lt_irrefl _)
    · exfalso
      have hv : s.current_cmd_velocity_ = 0 := by linarith
      rw [hv] at hsl
      have : 0 ≤ (s.current_target_position_ - s.current_cmd_position_) *
          (2 * c.MAX_ACCELERATION) := mul_nonneg (by linarith) (by linarith)
      norm_num at hsl
      linarith
    · rcases integratePosition_cases c s with ⟨_, hi⟩ | ⟨h, _⟩ | ⟨h, _⟩
      · rw [hi, hr]; exact ⟨by linarith, by linarith, by linarith⟩
      · rw [hr, htv] at h; exact absurd h (lt_irrefl _)
      · rw [hr, htv] at h; exact absurd h (lt_irrefl _)
    · have hvT2 : 0 ≤ (s.current_cmd_velocity_ - cmd_vel_increment c) * c.period :=
        mul_nonneg (by linarith) (le_of_lt hT)
      have hvT3 : 0 ≤ (s.current_cmd_velocity_ - cmd_vel_increment c -
          cmd_vel_increment c) * c.period := mul_nonneg (by linarith) (le_of_lt hT)
      rcases integratePosition_cases c s with ⟨_, hi⟩ | ⟨h, _⟩ | ⟨_, hi⟩
      · rw [hi, hr]; exact ⟨by linarith, by linarith, by linarith⟩
      · rw [hr, htv] at h; linarith
      · rw [hi, hr]; exact ⟨by linarith, by linarith, by linarith⟩
    · exfalso
      rcases integratePosition_cases c s with ⟨_, hi⟩ | ⟨h, _⟩ | ⟨h, _⟩
      · rw [hi, hr] at hnd; exact hreach (le_of_eq h1) hnd
      · rw [hr, htv] at h; exact absurd h (lt_irrefl _)
      · rw [hr, htv] at h; exact absurd h (lt_irrefl _)

theorem vel_max_mirror (c : Config) (s : DensoCobottaGripper) :
    vel_max c (mirror s) = vel_max c s := rfl

theorem slowdown_length_mirror (c : Config) (s : DensoCobottaGripper) :
    slowdown_length c (mirror s) = slowdown_length c s := by
  simp [slowdown_length, mirror]

theorem position_error_mirror (s : DensoCobottaGripper) :
    position_error (mirror s) = position_error s := by
  unfold position_error mirror
  simp only
  rw [← abs_neg]
  congr 1
  ring

theorem direction_mirror (s : DensoCobottaGripper)
    (h : s.current_target_position_ < s.start_position_) :
    direction (mirror s) = 1 ∧ direction s = -1 := by
  refine ⟨?_, direction_of_lt s h⟩
  apply direction_of_le
  simp only [mirror]
  linarith

theorem target_velocity_mirror (c : Config) (s : DensoCobottaGripper)
    (h : s.current_target_position_ < s.start_position_) :
    target_velocity c (mirror s) = -target_velocity c s := by
  obtain ⟨h1, h2⟩ := direction_mirror s h
  unfold target_velocity
  rw [position_error_mirror, slowdown_length_mirror, vel_max_mirror, h1, h2]
  split_ifs <;> ring1

theorem rampVelocity_mirror (c : Config) (s : DensoCobottaGripper)
    (h : s.current_target_position_ < s.start_position_) :
    rampVelocity c (mirror s) = -rampVelocity c s := by
  unfold rampVelocity
  rw [target_velocity_mirror c s h]
  have hv : (mirror s).current_cmd_velocity_ = -s.current_cmd_velocity_ := rfl
  rw [hv]
  split_ifs <;> first | rfl | (exfalso; linarith) | ring1

theorem integratePosition_mirror (c : Config) (s : DensoCobottaGripper)
    (h : s.current_target_position_ < s.start_position_) :
    integratePosition c (mirror s) = -integratePosition c s := by
  unfold integratePosition
  rw [target_velocity_mirror c s h, rampVelocity_mirror c s h]
  have hp : (mirror s).current_cmd_position_ = -s.current_cmd_position_ := rfl
  rw [hp]
  simp only [ne_eq, neg_inj, neg_le_neg_iff]
  split_ifs with h1 h2 h3 h3 <;> first | ring1 | (exfalso; linarith) | skip
  exact absurd (le_antisymm h3 h2) h1

/-- A move towards a target below the start is the mirror image of a move towards
a target above the start: the profiler step commutes with `mirror`. -/
theorem setGripperCommandLocked_mirror (c : Config) (s : DensoCobottaGripper)
    (h : s.current_target_position_ < s.start_position_) :
    setGripperCommandLocked c (mirror s) = mirror (setGripperCommandLocked c s) := by
  obtain ⟨h1, h2⟩ := direction_mirror s h
  unfold setGripperCommandLocked
  rw [integratePosition_mirror c s h, rampVelocity_mirror c s h, h1, h2]
  have ht : (mirror s).current_target_position_ = -s.current_target_position_ := rfl
  rw [ht]
  by_cases hd : integratePosition c s ≤ s.current_target_position_
  · rw [if_pos (Or.inl ⟨by norm_num, by linarith⟩), if_pos (Or.inr ⟨by norm_num, hd⟩)]
    simp [mirror]
  · rw [if_neg, if_neg]
    · simp [mirror]
    · rintro (⟨h3, _⟩ | ⟨_, h3⟩)
      · norm_num at h3
      · exact hd h3
    · rintro (⟨_, h3⟩ | ⟨h3, _⟩)
      · exact hd (by linarith)
      · norm_num at h3

/-- The members a profiler step never writes. -/
theorem setGripperCommandLocked_frame (c : Config) (s : DensoCobottaGripper) :
    (setGripperCommandLocked c s).start_position_ = s.start_position_ ∧
    (setGripperCommandLocked c s).current_target_position_ = s.current_target_position_ ∧
    (setGripperCommandLocked c s).current_speed_ = s.current_speed_ ∧
    (setGripperCommandLocked c s).current_effort_ = s.current_effort_ ∧
    (setGripperCommandLocked c s).current_position_ = s.current_position_ ∧
    (setGripperCommandLocked c s).motor_on_ = s.motor_on_ := by
  unfold setGripperCommandLocked
  split_ifs <;> exact ⟨rfl, rfl, rfl, rfl, rfl, rfl⟩

theorem direction_step (c : Config) (s : DensoCobottaGripper) :
    direction (setGripperCommandLocked c s) = direction s := by
  obtain ⟨h1, h2, _⟩ := setGripperCommandLocked_frame c s
  unfold direction
  rw [h1, h2]

theorem vel_max_step (c : Config) (s : DensoCobottaGripper) :
    vel_max c (setGripperCommandLocked c s) = vel_max c s := by
  obtain ⟨_, _, h3, _⟩ := setGripperCommandLocked_frame c s
  unfold vel_max
  rw [h3]

theorem stepAdvance_step (c : Config) (s : DensoCobottaGripper) :
    stepAdvance c (setGripperCommandLocked c s) = stepAdvance c s := by
  unfold stepAdvance
  rw [vel_max_step]

/-- A step that reports completion has snapped the position to the target and the
velocity to zero. -/
theorem step_complete (c : Config) (s : DensoCobottaGripper)
    (h : (setGripperCommandLocked c s).move_complete_ = true) :
    (setGripperCommandLocked c s).current_cmd_velocity_ = 0 ∧
    (setGripperCommandLocked c s).current_cmd_position_ = s.current_target_position_ := by
  unfold setGripperCommandLocked at h ⊢
  by_cases hc : (direction s ≥ 0 ∧ integratePosition c s ≥ s.current_target_position_) ∨
      (direction s < 0 ∧ integratePosition c s ≤ s.current_target_position_)
  · rw [if_pos hc]
    exact ⟨rfl, rfl⟩
  · rw [if_neg hc] at h
    exact absurd h (by simp)

/-- A step that does not report completion has stored the ramped velocity and the
integrated position, and that position is short of the target. -/
theorem step_not_complete (c : Config) (s : DensoCobottaGripper)
    (h : (setGripperCommandLocked c s).move_complete_ = false) :
    (setGripperCommandLocked c s).current_cmd_velocity_ = rampVelocity c s ∧
    (setGripperCommandLocked c s).current_cmd_position_ = integratePosition c s ∧
    ¬ ((direction s ≥ 0 ∧ integratePosition c s ≥ s.current_target_position_) ∨
       (direction s < 0 ∧ integratePosition c s ≤ s.current_target_position_)) := by
  unfold setGripperCommandLocked at h ⊢
  by_cases hc : (direction s ≥ 0 ∧ integratePosition c s ≥ s.current_target_position_) ∨
      (direction s < 0 ∧ integratePosition c s ≤ s.current_target_position_)
  · rw [if_pos hc] at h
    exact absurd h (by simp)
  · rw [if_neg hc]
    exact ⟨rfl, rfl, hc⟩

theorem stepAdvance_nonneg (c : Config) (s : DensoCobottaGripper)
    (ha : 0 < c.MAX_ACCELERATION) (hT : 0 < c.period) (hvm : 0 ≤ vel_max c s) :
    0 ≤ stepAdvance c s := by
  unfold stepAdvance
  exact le_min (mul_nonneg hvm (le_of_lt hT))
    (mul_nonneg (mul_nonneg (mul_nonneg (le_of_lt ha) (le_of_lt hT)) (le_of_lt hT)) (by norm_num))

theorem stepAdvance_pos (c : Config) (s : DensoCobottaGripper)
    (ha : 0 < c.MAX_ACCELERATION) (hT : 0 < c.period) (hvm : 0 < vel_max c s) :
    0 < stepAdvance c s := by
  unfold stepAdvance
  exact lt_min (mul_pos hvm hT) (mul_pos (mul_pos (mul_pos ha hT) hT) (by norm_num))

/-- One profiler step of a move towards a target at or above the start keeps the
move on course and, unless it completes the move, shortens the distance to the
target by at least `stepAdvance`. -/
theorem step_onCourse_forward (c : Config) (s : DensoCobottaGripper)
    (ha : 0 < c.MAX_ACCELERATION) (hT : 0 < c.period)
    (hdir : s.start_position_ ≤ s.current_target_position_) (h : OnCourse c s) :
    OnCourse c (setGripperCommandLocked c s) ∧
    ((setGripperCommandLocked c s).move_complete_ = false →
      position_error (setGripperCommandLocked c s) + stepAdvance c s ≤ position_error s) := by
  have hd := direction_of_le s hdir
  obtain ⟨h0, h1, h2⟩ := h
  rw [hd, one_mul] at h0 h1 h2
  have hfr := setGripperCommandLocked_frame c s
  unfold OnCourse
  rw [direction_step, vel_max_step, hd, hfr.2.1]
  simp only [one_mul]
  cases hmc : (setGripperCommandLocked c s).move_complete_
  · obtain ⟨hv, hp, hnd⟩ := step_not_complete c s hmc
    have hlt : integratePosition c s < s.current_target_position_ := by
      by_contra hge
      exact hnd (Or.inl ⟨by rw [hd]; norm_num, not_lt.1 hge⟩)
    obtain ⟨f0, f1, f2⟩ := forward_step c s ha hT hdir h0 h1 (by linarith) hlt
    rw [hv, hp]
    refine ⟨⟨f0, f1, by linarith⟩, fun _ => ?_⟩
    unfold position_error
    rw [hp, hfr.2.1, abs_of_nonneg (by linarith), abs_of_nonneg (by linarith)]
    linarith
  · obtain ⟨hv, hp⟩ := step_complete c s hmc
    rw [hv, hp]
    refine ⟨⟨le_refl _, by linarith, by linarith⟩, fun hf => ?_⟩
    exact absurd hf (by simp)

theorem onCourse_mirror (c : Config) (s : DensoCobottaGripper)
    (h : s.current_target_position_ < s.start_position_) :
    OnCourse c (mirror s) ↔ OnCourse c s := by
  obtain ⟨h1, h2⟩ := direction_mirror s h
  unfold OnCourse
  rw [h1, h2, vel_max_mirror]
  simp only [mirror]
  constructor
  · rintro ⟨a1, a2, a3⟩
    exact ⟨by linarith, by linarith, by linarith⟩
  · rintro ⟨a1, a2, a3⟩
    exact ⟨by linarith, by linarith, by linarith⟩

/-- One profiler step keeps a move on course, whichever way it goes, and, unless
it completes the move, shortens the distance to the target by at least
`stepAdvance`. -/
theorem step_onCourse (c : Config) (s : DensoCobottaGripper)
    (ha : 0 < c.MAX_ACCELERATION) (hT : 0 < c.period) (h : OnCourse c s) :
    OnCourse c (setGripperCommandLocked c s) ∧
    ((setGripperCommandLocked c s).move_complete_ = false →
      position_error (setGripperCommandLocked c s) + stepAdvance c s ≤ position_error s) := by
  by_cases hdir : s.start_position_ ≤ s.current_target_position_
  · exact step_onCourse_forward c s ha hT hdir h
  · have hlt : s.current_target_position_ < s.start_position_ := not_le.1 hdir
    have hm : (mirror s).start_position_ ≤ (mirror s).current_target_position_ := by
      simp only [mirror]; linarith
    obtain ⟨g1, g2⟩ := step_onCourse_forward c (mirror s) ha hT hm
      ((onCourse_mirror c s hlt).2 h)
    rw [setGripperCommandLocked_mirror c s hlt] at g1 g2
    have hfr := setGripperCommandLocked_frame c s
    have hlt2 : (setGripperCommandLocked c s).current_target_position_ <
        (setGripperCommandLocked c s).start_position_ := by
      rw [hfr.1, hfr.2.1]; exact hlt
    refine ⟨(onCourse_mirror c _ hlt2).1 g1, fun hf => ?_⟩
    have g3 := g2 hf
    rw [position_error_mirror, position_error_mirror] at g3
    exact g3

/-- The two outcomes of `gripperMove`: refused with the state untouched, or
accepted with the goal stored. -/
theorem gripperMove_cases (c : Config) (t sp e : ℚ) (s : DensoCobottaGripper) :
    gripperMove c t sp e s = (false, s) ∨
    gripperMove c t sp e s =
      (true, { s with start_position_ := s.current_position_,
                      current_speed_ := sp,
                      current_effort_ := e,
                      current_cmd_position_ := s.current_position_,
                      current_target_position_ := t,
                      move_complete_ := false }) := by
  unfold gripperMove
  split_ifs
  · exact Or.inl rfl
  · exact Or.inl rfl
  · exact Or.inl rfl
  · exact Or.inr rfl

/-- What a successful `init` leaves behind. -/
theorem init_success (c : Config) (fd ret encoder : Int) (s : DensoCobottaGripper)
    (h : (init c fd ret encoder s).1 = true) :
    (init c fd ret encoder s).2.current_cmd_velocity_ = 0 ∧
    (init c fd ret encoder s).2.current_speed_ = 0 ∧
    (init c fd ret encoder s).2.move_complete_ = true ∧
    (init c fd ret encoder s).2.current_cmd_position_ =
      (init c fd ret encoder s).2.current_target_position_ ∧
    (init c fd ret encoder s).2.current_target_position_ =
      (init c fd ret encoder s).2.start_position_ := by
  unfold init at h ⊢
  by_cases h1 : fd < 0
  · simp [h1] at h
  · by_cases h2 : ret ≠ 0
    · simp [h1, getEncoderData, h2] at h
    · simp [h1, getEncoderData, h2]

theorem run_cons (c : Config) (op : Op) (ops : List Op) (s : DensoCobottaGripper) :
    run c (op :: ops) s = run c ops (applyOp c op s) := rfl

theorem run_append (c : Config) (l1 l2 : List Op) (s : DensoCobottaGripper) :
    run c (l1 ++ l2) s = run c l2 (run c l1 s) := by
  unfold run
  rw [List.foldl_append]

theorem profilerSteps_succ (c : Config) (n : Nat) (s : DensoCobottaGripper) :
    profilerSteps c (n + 1) s = profilerSteps c n (setGripperCommandLocked c s) := by
  unfold profilerSteps
  rw [Function.iterate_succ_apply]

theorem profilerSteps_succ_outer (c : Config) (n : Nat) (s : DensoCobottaGripper) :
    profilerSteps c (n + 1) s = setGripperCommandLocked c (profilerSteps c n s) := by
  unfold profilerSteps
  rw [Function.iterate_succ_apply']

/-- Every locked profiler step ends in a state where completion means settled. -/
theorem settled_step (c : Config) (s : DensoCobottaGripper) :
    CompleteIsSettled (setGripperCommandLocked c s) := by
  intro h
  obtain ⟨h1, h2⟩ := step_complete c s h
  exact ⟨h1, by rw [h2, (setGripperCommandLocked_frame c s).2.1]⟩

theorem settled_applyOp (c : Config) (op : Op) (s : DensoCobottaGripper)
    (hop : op ≠ Op.stop) (h : CompleteIsSettled s) : CompleteIsSettled (applyOp c op s) := by
  cases op with
  | feedback encoder => exact h
  | move t sp e =>
    show CompleteIsSettled (gripperMove c t sp e s).2
    rcases gripperMove_cases c t sp e s with hm | hm
    · rw [hm]; exact h
    · rw [hm]; intro hc; exact absurd hc (by simp)
  | stop => exact absurd rfl hop
  | profile acquired =>
    cases acquired
    · exact h
    · exact settled_step c s

theorem settled_run (c : Config) (ops : List Op) (s : DensoCobottaGripper)
    (hops : Op.stop ∉ ops) (h : CompleteIsSettled s) : CompleteIsSettled (run c ops s) := by
  induction ops generalizing s with
  | nil => exact h
  | cons op rest ih =>
    rw [run_cons]
    have h1 : op ≠ Op.stop := fun he => hops (by rw [he]; exact List.mem_cons_self _ _)
    have h2 : Op.stop ∉ rest := fun hm => hops (List.mem_cons_of_mem _ hm)
    exact ih (applyOp c op s) h2 (settled_applyOp c op s h1 h)

theorem direction_cases (s : DensoCobottaGripper) : direction s = 1 ∨ direction s = -1 := by
  unfold direction
  split_ifs
  · exact Or.inl rfl
  · exact Or.inr rfl

/-- On course, the commanded velocity is within `vel_max` in absolute value. -/
theorem onCourse_velocity_bound (c : Config) (s : DensoCobottaGripper) (h : OnCourse c s) :
    |s.current_cmd_velocity_| ≤ vel_max c s := by
  obtain ⟨h0, h1, _⟩ := h
  rcases direction_cases s with hd | hd <;> rw [hd] at h0 h1 <;> rw [abs_le] <;>
    constructor <;> linarith

/-- A goal stored while the commanded velocity is zero, with a speed that is not
negative, starts on course. -/
theorem onCourse_stored (c : Config) (t sp e : ℚ) (s : DensoCobottaGripper)
    (hV : 0 ≤ c.MAX_VELOCITY) (hrest : s.current_cmd_velocity_ = 0) (hsp : 0 ≤ sp) :
    OnCourse c { s with start_position_ := s.current_position_,
                        current_speed_ := sp,
                        current_effort_ := e,
                        current_cmd_position_ := s.current_position_,
                        current_target_position_ := t,
                        move_complete_ := false } := by
  unfold OnCourse vel_max direction
  simp only [hrest, mul_zero, le_refl, true_and]
  refine ⟨by positivity, ?_⟩
  split_ifs with hd
  · linarith
  · linarith

theorem onCourse_applyOp (c : Config) (op : Op) (s : DensoCobottaGripper)
    (hV : 0 ≤ c.MAX_VELOCITY) (ha : 0 < c.MAX_ACCELERATION) (hT : 0 < c.period)
    (hg : atRest c op s) (h : OnCourse c s) : OnCourse c (applyOp c op s) := by
  cases op with
  | feedback encoder => exact h
  | move t sp e =>
    show OnCourse c (gripperMove c t sp e s).2
    rcases gripperMove_cases c t sp e s with hm | hm
    · rw [hm]; exact h
    · have hg2 : s.current_cmd_velocity_ = 0 ∧ 0 ≤ sp := hg (by rw [hm])
      rw [hm]
      exact onCourse_stored c t sp e s hV hg2.1 hg2.2
  | stop =>
    have hg2 : s.current_cmd_velocity_ = 0 := hg
    obtain ⟨_, _, h3⟩ := h
    show OnCourse c (gripperStop s).2
    unfold OnCourse vel_max gripperStop
    simp only [hg2, mul_zero, zero_mul, le_refl, true_and]
    exact h3
  | profile acquired =>
    cases acquired
    · exact h
    · exact (step_onCourse c s ha hT h).1

theorem onCourse_run (c : Config) (ops : List Op) (s : DensoCobottaGripper)
    (hV : 0 ≤ c.MAX_VELOCITY) (ha : 0 < c.MAX_ACCELERATION) (hT : 0 < c.period)
    (hg : issuedAtRest c ops s) (h : OnCourse c s) : OnCourse c (run c ops s) := by
  induction ops generalizing s with
  | nil => exact h
  | cons op rest ih =>
    rw [run_cons]
    exact ih (applyOp c op s) hg.2 (onCourse_applyOp c op s hV ha hT hg.1 h)

theorem issuedAtRest_of_quiet (c : Config) (ops : List Op) (s : DensoCobottaGripper)
    (hq : ∀ op ∈ ops, isQuiet op = true) : issuedAtRest c ops s := by
  induction ops generalizing s with
  | nil => exact trivial
  | cons op rest ih =>
    refine ⟨?_, ih _ (fun o ho => hq o (List.mem_cons_of_mem _ ho))⟩
    have h1 := hq op (List.mem_cons_self _ _)
    cases op with
    | feedback encoder => exact trivial
    | move t sp e => exact absurd h1 (by simp [isQuiet])
    | stop => exact absurd h1 (by simp [isQuiet])
    | profile acquired => exact trivial

/-- The state a successful `init` sets up is on course. -/
theorem onCourse_init (c : Config) (fd ret encoder : Int) (s : DensoCobottaGripper)
    (h : (init c fd ret encoder s).1 = true) : OnCourse c (init c fd ret encoder s).2 := by
  obtain ⟨h1, h2, _, h4, _⟩ := init_success c fd ret encoder s h
  unfold OnCourse vel_max
  rw [h1, h2, h4]
  simp

/-- A step that does not report completion leaves the position off the target. -/
theorem step_not_complete_error_pos (c : Config) (s : DensoCobottaGripper)
    (h : (setGripperCommandLocked c s).move_complete_ = false) :
    0 < position_error (setGripperCommandLocked c s) := by
  obtain ⟨_, hp, hnd⟩ := step_not_complete c s h
  unfold position_error
  rw [hp, (setGripperCommandLocked_frame c s).2.1]
  apply abs_pos.2
  intro heq
  have heq2 : integratePosition c s = s.current_target_position_ := by linarith
  rcases direction_cases s with hd | hd
  · exact hnd (Or.inl ⟨by rw [hd]; norm_num, le_of_eq heq2.symm⟩)
  · exact hnd (Or.inr ⟨by rw [hd]; norm_num, le_of_eq heq2⟩)

/-- A profiler step on a settled state, with `vel_max` not negative, reports
completion again. -/
theorem step_of_settled (c : Config) (s : DensoCobottaGripper)
    (ha : 0 < c.MAX_ACCELERATION) (hT : 0 < c.period) (hvm : 0 ≤ vel_max c s)
    (hv : s.current_cmd_velocity_ = 0)
    (hp : s.current_cmd_position_ = s.current_target_position_) :
    (setGripperCommandLocked c s).move_complete_ = true := by
  have hoc : OnCourse c s := by
    unfold OnCourse
    rw [hv, hp]
    simp [hvm]
  cases hmc : (setGripperCommandLocked c s).move_complete_
  · exfalso
    have h1 := (step_onCourse c s ha hT hoc).2 hmc
    have h2 := step_not_complete_error_pos c s hmc
    have h3 := stepAdvance_nonneg c s ha hT hvm
    have h4 : position_error s = 0 := by
      unfold position_error
      rw [hp]; simp
    linarith
  · rfl

/-- The ramp changes the velocity by the increment at most. -/
theorem rampVelocity_change (c : Config) (s : DensoCobottaGripper)
    (hinc : 0 ≤ cmd_vel_increment c) :
    |rampVelocity c s - s.current_cmd_velocity_| ≤ cmd_vel_increment c := by
  rw [abs_le]
  rcases rampVelocity_cases c s (target_velocity c s) rfl with
    ⟨h1, h2, hr⟩ | ⟨_, hr⟩ | ⟨h1, h2, hr⟩ | ⟨_, hr⟩ | ⟨h1, hr⟩ <;> rw [hr] <;>
    constructor <;> linarith

/-- The absolute value in `position_error`, written as the test it stands for. -/
theorem position_error_eq_ite (s : DensoCobottaGripper) :
    position_error s =
      if 0 ≤ s.current_target_position_ - s.current_cmd_position_
        then s.current_target_position_ - s.current_cmd_position_
        else -(s.current_target_position_ - s.current_cmd_position_) := by
  unfold position_error
  split_ifs with h
  · exact abs_of_nonneg h
  · exact abs_of_neg (not_le.1 h)

theorem profilerSteps_zero (c : Config) (s : DensoCobottaGripper) :
    profilerSteps c 0 s = s := rfl

/-- Once settled, with `vel_max` not negative, every further run of profiler
steps stays settled and keeps the goal. -/
theorem profilerSteps_of_settled (c : Config) (s : DensoCobottaGripper)
    (ha : 0 < c.MAX_ACCELERATION) (hT : 0 < c.period) (hvm : 0 ≤ vel_max c s)
    (hv : s.current_cmd_velocity_ = 0)
    (hp : s.current_cmd_position_ = s.current_target_position_)
    (hc : s.move_complete_ = true) (n : Nat) :
    (profilerSteps c n s).current_cmd_velocity_ = 0 ∧
    (profilerSteps c n s).current_cmd_position_ = s.current_target_position_ ∧
    (profilerSteps c n s).move_complete_ = true ∧
    (profilerSteps c n s).current_target_position_ = s.current_target_position_ ∧
    vel_max c (profilerSteps c n s) = vel_max c s := by
  induction n with
  | zero => exact ⟨hv, hp, hc, rfl, rfl⟩
  | succ m ih =>
    obtain ⟨i1, i2, _, i4, i5⟩ := ih
    rw [profilerSteps_succ_outer]
    have hdone := step_of_settled c (profilerSteps c m s) ha hT (by rw [i5]; exact hvm) i1
      (by rw [i2, i4])
    obtain ⟨d1, d2⟩ := step_complete c _ hdone
    exact ⟨d1, by rw [d2, i4], hdone,
      by rw [(setGripperCommandLocked_frame c _).2.1, i4], by rw [vel_max_step, i5]⟩

/-- An on-course move whose distance to the target is at most `k` advances is
completed by some step among the first `k + 1`, and by none before it. -/
theorem completes_within (c : Config) (ha : 0 < c.MAX_ACCELERATION) (hT : 0 < c.period)
    (k : Nat) : ∀ s : DensoCobottaGripper, OnCourse c s → 0 < stepAdvance c s →
      position_error s ≤ k * stepAdvance c s →
      ∃ n, 1 ≤ n ∧ n ≤ k + 1 ∧
        (profilerSteps c n s).move_complete_ = true ∧
        (profilerSteps c n s).current_cmd_velocity_ = 0 ∧
        (profilerSteps c n s).current_cmd_position_ = s.current_target_position_ ∧
        ∀ j, 1 ≤ j → j < n → (profilerSteps c j s).move_complete_ = false := by
  induction k with
  | zero =>
    intro s hoc hadv herr
    cases hmc : (setGripperCommandLocked c s).move_complete_
    · exfalso
      have h1 := (step_onCourse c s ha hT hoc).2 hmc
      have h2 := step_not_complete_error_pos c s hmc
      simp only [Nat.cast_zero, zero_mul] at herr
      linarith
    · obtain ⟨d1, d2⟩ := step_complete c s hmc
      exact ⟨1, le_refl _, by omega, hmc, d1, d2, fun j h1 h2 => by omega⟩
  | succ m ih =>
    intro s hoc hadv herr
    cases hmc : (setGripperCommandLocked c s).move_complete_
    · obtain ⟨g1, g2⟩ := step_onCourse c s ha hT hoc
      have h1 := g2 hmc
      have herr2 : position_error (setGripperCommandLocked c s) ≤
          m * stepAdvance c (setGripperCommandLocked c s) := by
        rw [stepAdvance_step]
        push_cast at herr
        linarith
      obtain ⟨n, n1, n2, n3, n4, n5, n6⟩ :=
        ih (setGripperCommandLocked c s) g1 (by rw [stepAdvance_step]; exact hadv) herr2
      refine ⟨n + 1, by omega, by omega, ?_, ?_, ?_, ?_⟩
      · rw [profilerSteps_succ]; exact n3
      · rw [profilerSteps_succ]; exact n4
      · rw [profilerSteps_succ, n5, (setGripperCommandLocked_frame c s).2.1]
      · intro j j1 j2
        obtain ⟨i, rfl⟩ : ∃ i, j = i + 1 := ⟨j - 1, by omega⟩
        rw [profilerSteps_succ]
        by_cases hi : i = 0
        · rw [hi]; exact hmc
        · exact n6 i (by omega) (by omega)
    · obtain ⟨d1, d2⟩ := step_complete c s hmc
      exact ⟨1, le_refl _, by omega, hmc, d1, d2, fun j h1 h2 => by omega⟩

/-- What an accepted `gripperMove` returns. -/
theorem gripperMove_accepted (c : Config) (t sp e : ℚ) (s : DensoCobottaGripper)
    (h : (gripperMove c t sp e s).1 = true) :
    (gripperMove c t sp e s).2 =
      { s with start_position_ := s.current_position_,
               current_speed_ := sp,
               current_effort_ := e,
               current_cmd_position_ := s.current_position_,
               current_target_position_ := t,
               move_complete_ := false } := by
  rcases gripperMove_cases c t sp e s with hm | hm
  · rw [hm] at h; exact absurd h (by simp)
  · rw [hm]

/-- Over exact values, where not-a-number does not exist: a request with at least
one value outside its range is refused and the whole state is returned as it
was. -/
theorem gripperMove_reject_exact (c : Config) (s : DensoCobottaGripper)
    (target_position speed effort : ℚ)
    (h : ¬ (c.MIN_POSITION ≤ target_position ∧ target_position ≤ c.MAX_POSITION) ∨
         ¬ (c.MIN_SPEED ≤ speed ∧ speed ≤ c.MAX_SPEED) ∨
         ¬ (c.MIN_EFFORT ≤ effort ∧ effort ≤ c.MAX_EFFORT)) :
    gripperMove c target_position speed effort s = (false, s) := by
  unfold gripperMove
  by_cases h1 : target_position < c.MIN_POSITION ∨ target_position > c.MAX_POSITION
  · rw [if_pos h1]
  · rw [if_neg h1]
    by_cases h2 : speed < c.MIN_SPEED ∨ speed > c.MAX_SPEED
    · rw [if_pos h2]
    · rw [if_neg h2]
      by_cases h3 : effort < c.MIN_EFFORT ∨ effort > c.MAX_EFFORT
      · rw [if_pos h3]
      · exfalso
        simp only [not_or, not_lt, gt_iff_lt] at h1 h2 h3
        rcases h with h | h | h
        · exact h h1
        · exact h h2
        · exact h h3

/-- On doubles, a request in which one of the six comparisons of `gripperMove`
holds is refused and the whole state is returned as it was. -/
theorem gripperMoveDouble_reject (c : Config) (s : GripperDouble)
    (target_position speed effort : Double)
    (h : Double.lt target_position (Double.finite c.MIN_POSITION) = true ∨
         Double.lt (Double.finite c.MAX_POSITION) target_position = true ∨
         Double.lt speed (Double.finite c.MIN_SPEED) = true ∨
         Double.lt (Double.finite c.MAX_SPEED) speed = true ∨
         Double.lt effort (Double.finite c.MIN_EFFORT) = true ∨
         Double.lt (Double.finite c.MAX_EFFORT) effort = true) :
    gripperMoveDouble c target_position speed effort s = (false, s) := by
  unfold gripperMoveDouble
  split_ifs with h1 h2 h3
  · rfl
  · rfl
  · rfl
  · exfalso
    simp only [Bool.or_eq_true, not_or, Bool.not_eq_true] at h1 h2 h3
    rcases h with h | h | h | h | h | h
    · rw [h1.1] at h; exact absurd h (by simp)
    · rw [h1.2] at h; exact absurd h (by simp)
    · rw [h2.1] at h; exact absurd h (by simp)
    · rw [h2.2] at h; exact absurd h (by simp)
    · rw [h3.1] at h; exact absurd h (by simp)
    · rw [h3.2] at h; exact absurd h (by simp)

/-- On finite arguments and a state of finite members the function on doubles does
what `gripperMove` does on exact values. -/
theorem gripperMoveDouble_finite (c : Config) (s : DensoCobottaGripper) (t sp e : ℚ) :
    gripperMoveDouble c (Double.finite t) (Double.finite sp) (Double.finite e) (toDouble s) =
      ((gripperMove c t sp e s).1, toDouble (gripperMove c t sp e s).2) := by
  unfold gripperMoveDouble gripperMove
  simp only [Double.lt, Bool.or_eq_true, decide_eq_true_eq, gt_iff_lt]
  split_ifs <;> rfl

/-- C1 fails on the code: a request whose target position is not-a-number, with
speed 50 and effort 10 inside their ranges, has its target outside the range from
MIN_POSITION to MAX_POSITION, and yet `gripperMove` returns true, stores
not-a-number as the target and clears `move_complete_`: none of the six
comparisons of lines 185, 192 and 198 holds for not-a-number. -/
theorem gripperMove_accepts_nan :
    Double.inRange scenarioConfig.MIN_POSITION scenarioConfig.MAX_POSITION Double.nan = false ∧
    (gripperMoveDouble scenarioConfig Double.nan (Double.finite 50) (Double.finite 10)
      (toDouble initialState)).1 = true ∧
    (gripperMoveDouble scenarioConfig Double.nan (Double.finite 50) (Double.finite 10)
      (toDouble initialState)).2.current_target_position_ = Double.nan ∧
    (gripperMoveDouble scenarioConfig Double.nan (Double.finite 50) (Double.finite 10)
      (toDouble initialState)).2.move_complete_ = false ∧
    (toDouble initialState).move_complete_ = true ∧
    gripperMoveDouble scenarioConfig Double.nan (Double.finite 50) (Double.finite 10)
      (toDouble initialState) ≠ (false, toDouble initialState) := by
  have h : gripperMoveDouble scenarioConfig Double.nan (Double.finite 50) (Double.finite 10)
      (toDouble initialState) =
      (true, { toDouble initialState with
                 start_position_ := (toDouble initialState).current_position_,
                 current_speed_ := Double.finite 50,
                 current_effort_ := Double.finite 10,
                 current_cmd_position_ := (toDouble initialState).current_position_,
                 current_target_position_ := Double.nan,
                 move_complete_ := false }) := by
    unfold gripperMoveDouble
    norm_num [Double.lt, scenarioConfig]
  have hm : (toDouble initialState).move_complete_ = true := by
    simp [toDouble, initialState, init, getEncoderData]
  refine ⟨rfl, ?_, ?_, ?_, hm, ?_⟩
  · rw [h]
  · rw [h]
  · rw [h]
  · rw [h]
    intro hc
    exact absurd (congrArg Prod.fst hc) (by simp)

/-- C2: a request with all three values inside their ranges (bounds included) is
accepted and stores the goal. -/
theorem gripperMove_accept_post (c : Config) (s : DensoCobottaGripper)
    (target_position speed effort : ℚ)
    (hp : c.MIN_POSITION ≤ target_position ∧ target_position ≤ c.MAX_POSITION)
    (hs : c.MIN_SPEED ≤ speed ∧ speed ≤ c.MAX_SPEED)
    (he : c.MIN_EFFORT ≤ effort ∧ effort ≤ c.MAX_EFFORT) :
    (gripperMove c target_position speed effort s).1 = true ∧
    (gripperMove c target_position speed effort s).2.start_position_ = s.current_position_ ∧
    (gripperMove c target_position speed effort s).2.current_cmd_position_ =
      (gripperMove c target_position speed effort s).2.start_position_ ∧
    (gripperMove c target_position speed effort s).2.current_target_position_ = target_position ∧
    (gripperMove c target_position speed effort s).2.current_speed_ = speed ∧
    (gripperMove c target_position speed effort s).2.current_effort_ = effort ∧
    (gripperMove c target_position speed effort s).2.move_complete_ = false ∧
    (gripperMove c target_position speed effort s).2.current_position_ = s.current_position_ ∧
    (gripperMove c target_position speed effort s).2.current_cmd_velocity_ =
      s.current_cmd_velocity_ := by
  have h1 : ¬ (target_position < c.MIN_POSITION ∨ target_position > c.MAX_POSITION) := by
    simp only [not_or, not_lt, gt_iff_lt]; exact hp
  have h2 : ¬ (speed < c.MIN_SPEED ∨ speed > c.MAX_SPEED) := by
    simp only [not_or, not_lt, gt_iff_lt]; exact hs
  have h3 : ¬ (effort < c.MIN_EFFORT ∨ effort > c.MAX_EFFORT) := by
    simp only [not_or, not_lt, gt_iff_lt]; exact he
  unfold gripperMove
  rw [if_neg h1, if_neg h2, if_neg h3]
  exact ⟨rfl, rfl, rfl, rfl, rfl, rfl, rfl, rfl, rfl⟩

/-- C2, on the constants of scenario A, with the target on the upper position
bound, the speed on the lower speed bound and the effort on the upper effort
bound. -/
theorem gripperMove_accept_post_witness :
    (gripperMove scenarioConfig 30 1 20 initialState).1 = true ∧
    (gripperMove scenarioConfig 30 1 20 initialState).2.start_position_ =
      initialState.current_position_ :=
  have h := gripperMove_accept_post scenarioConfig initialState 30 1 20
    (by norm_num [scenarioConfig]) (by norm_num [scenarioConfig]) (by norm_num [scenarioConfig])
  ⟨h.1, h.2.1⟩

/-- C3 as stated fails: one profiler step into a move from 0 to 10 the commanded
velocity is 5/2, and `gripperStop` leaves it at 5/2. -/
theorem gripperStop_velocity_counterexample :
    ¬ ((gripperStop (run scenarioConfig [Op.move 10 100 20, Op.profile true]
          initialState)).2.current_cmd_velocity_ = 0 ∧
       (gripperStop (run scenarioConfig [Op.move 10 100 20, Op.profile true]
          initialState)).2.move_complete_ = true) := by
  norm_num [run, applyOp, initialState, init, constructed, getEncoderData, gripperMove,
    gripperStop, setGripperCommand, setGripperCommandLocked, integratePosition, rampVelocity,
    target_velocity, position_error_eq_ite, slowdown_length, cmd_vel_increment, direction, vel_max,
    scenarioConfig]

/-- C3, amended: `gripperStop` returns `true`, sets the speed percent to zero and
`move_complete_` to true, and leaves every other member, the commanded velocity
among them, as it was. -/
theorem gripperStop_post (s : DensoCobottaGripper) :
    (gripperStop s).1 = true ∧
    (gripperStop s).2.current_speed_ = 0 ∧
    (gripperStop s).2.move_complete_ = true ∧
    (gripperStop s).2.current_cmd_velocity_ = s.current_cmd_velocity_ ∧
    (gripperStop s).2.current_cmd_position_ = s.current_cmd_position_ ∧
    (gripperStop s).2.current_target_position_ = s.current_target_position_ ∧
    (gripperStop s).2.start_position_ = s.start_position_ ∧
    (gripperStop s).2.current_position_ = s.current_position_ ∧
    (gripperStop s).2.current_effort_ = s.current_effort_ ∧
    (gripperStop s).2.motor_on_ = s.motor_on_ :=
  ⟨rfl, rfl, rfl, rfl, rfl, rfl, rfl, rfl, rfl, rfl⟩

/-- C5 as stated fails: with the motor on, a read that succeeds and a write whose
`ioctl` returns 0 with result code 1, the pass through the loop body makes `main`
return 1; the loop does not go round again. -/
theorem overflow_fault_counterexample :
    mainLoopBody scenarioConfig 0 0 true 0 1 (subRobotStateCB 0x0f200201 initialState) =
      CycleResult.exited 1 ∧
    ∀ s, mainLoopBody scenarioConfig 0 0 true 0 1 (subRobotStateCB 0x0f200201 initialState) ≠
      CycleResult.continued s := by
  have h : mainLoopBody scenarioConfig 0 0 true 0 1 (subRobotStateCB 0x0f200201 initialState) =
      CycleResult.exited 1 := by
    simp [mainLoopBody, Read, Write, isMotorOn, getEncoderData, setServoUpdateData,
      subRobotStateCB]
  refine ⟨h, ?_⟩
  intro s hs
  rw [h] at hs
  exact CycleResult.noConfusion hs

/-- C5, amended: a pass through the loop body makes `main` return 1 exactly when
the read transaction fails, or the motor is on and either the write transaction
fails or its result code is neither 0 nor 0x0F408101; in every other case the loop
goes round again.  A device-reported fault ends the process like a transport
failure does. -/
theorem mainLoopBody_exits_iff (c : Config) (read_ret encoder : Int) (acquired : Bool)
    (write_ret result : Int) (s : DensoCobottaGripper) :
    (mainLoopBody c read_ret encoder acquired write_ret result s = CycleResult.exited 1 ↔
      (read_ret ≠ 0 ∨
        (s.motor_on_ = true ∧ (write_ret ≠ 0 ∨ (result ≠ 0 ∧ result ≠ 0x0F408101))))) ∧
    ((∃ s1, mainLoopBody c read_ret encoder acquired write_ret result s =
        CycleResult.continued s1) ↔
      ¬ (read_ret ≠ 0 ∨
        (s.motor_on_ = true ∧ (write_ret ≠ 0 ∨ (result ≠ 0 ∧ result ≠ 0x0F408101))))) := by
  unfold mainLoopBody Read Write isMotorOn getEncoderData setServoUpdateData
  by_cases h1 : read_ret = 0
  · by_cases hm : s.motor_on_ = true
    · by_cases h2 : write_ret = 0
      · by_cases h3 : result = 0
        · simp [h1, hm, h2, h3]
        · by_cases h4 : result = 0x0F408101
          · simp [h1, hm, h2, h4]
          · simp [h1, hm, h2, h3, h4]
      · simp [h1, hm, h2]
    · simp [h1, hm]
  · simp [h1]

/-- C4 as stated fails: after `initialize` at position 0, an accepted move to 10
followed by `gripperStop` leaves `move_complete_` true with the commanded position
0 away from the target 10. -/
theorem move_complete_invariant_counterexample :
    (init scenarioConfig 3 0 0 constructed).1 = true ∧
    ¬ CompleteIsSettled (run scenarioConfig [Op.move 10 100 20, Op.stop]
        (init scenarioConfig 3 0 0 constructed).2) := by
  norm_num [CompleteIsSettled, run, applyOp, init, constructed, getEncoderData,
    gripperMove, gripperStop, scenarioConfig]

/-- C4, amended: if `initialize` succeeds, then `move_complete_ = true` implies
commanded velocity 0 and commanded position on the target in every state reached
by feedback reads, `gripperMove` calls and profiler steps without a `gripperStop`,
and also in every state reached by any calls at all, `gripperStop` included, once a
profiler step that took the lock is followed only by calls other than
`gripperStop`. -/
theorem move_complete_invariant (c : Config) (s0 : DensoCobottaGripper) (fd ret encoder : Int)
    (hinit : (init c fd ret encoder s0).1 = true) (ops : List Op) (hops : Op.stop ∉ ops) :
    CompleteIsSettled (run c ops (init c fd ret encoder s0).2) ∧
    ∀ pre : List Op,
      CompleteIsSettled (run c (pre ++ Op.profile true :: ops) (init c fd ret encoder s0).2) := by
  obtain ⟨h1, _, _, h4, _⟩ := init_success c fd ret encoder s0 hinit
  refine ⟨settled_run c ops _ hops (fun _ => ⟨h1, h4⟩), fun pre => ?_⟩
  rw [run_append, run_cons]
  exact settled_run c ops _ hops (settled_step c _)

/-- C4 amended, on the constants of scenario A: a move to 10 and a profiler
step, and the same two calls after a move, a `gripperStop` and a further profiler
step. -/
theorem move_complete_invariant_witness :
    CompleteIsSettled (run scenarioConfig [Op.move 10 100 20, Op.profile true]
      (init scenarioConfig 3 0 0 constructed).2) ∧
    CompleteIsSettled (run scenarioConfig
      ([Op.move 10 100 20, Op.stop] ++ Op.profile true :: [Op.move 10 100 20, Op.profile true])
      (init scenarioConfig 3 0 0 constructed).2) :=
  have h := move_complete_invariant scenarioConfig constructed 3 0 0
    (by simp [init, getEncoderData]) [Op.move 10 100 20, Op.profile true] (by simp)
  ⟨h.1, h.2 [Op.move 10 100 20, Op.stop]⟩

/-- C6 as stated fails: with maximum velocity 5, maximum acceleration 25 and
period 1/10, one profiler step into a move at speed 100 the commanded velocity is
5/2; `gripperStop` then sets the speed percent to 0 and the bound to 0 while the
velocity stays 5/2. -/
theorem velocity_bound_counterexample :
    0 ≤ scenarioConfig.MAX_VELOCITY ∧ 0 < scenarioConfig.MAX_ACCELERATION ∧
    0 < scenarioConfig.period ∧ (init scenarioConfig 3 0 0 constructed).1 = true ∧
    ¬ (|(run scenarioConfig [Op.move 10 100 20, Op.profile true, Op.stop]
          (init scenarioConfig 3 0 0 constructed).2).current_cmd_velocity_| ≤
        scenarioConfig.MAX_VELOCITY *
          (run scenarioConfig [Op.move 10 100 20, Op.profile true, Op.stop]
            (init scenarioConfig 3 0 0 constructed).2).current_speed_ / 100) := by
  norm_num [run, applyOp, init, constructed, getEncoderData, gripperMove,
    gripperStop, setGripperCommand, setGripperCommandLocked, integratePosition, rampVelocity,
    target_velocity, position_error_eq_ite, slowdown_length, cmd_vel_increment, direction, vel_max,
    scenarioConfig]

/-- C6, amended: in exact arithmetic with MAX_VELOCITY >= 0, MAX_ACCELERATION > 0
and period > 0, every state reached from the state a successful `initialize` sets
up through feedback reads, `gripperMove` calls, `gripperStop` calls and profiler
steps satisfies |commanded velocity| <= MAX_VELOCITY * speed / 100, provided every
`gripperStop` and every accepted `gripperMove` is issued while the commanded
velocity is 0 and every accepted speed is not negative. -/
theorem velocity_bound (c : Config) (s0 : DensoCobottaGripper) (fd ret encoder : Int)
    (hV : 0 ≤ c.MAX_VELOCITY) (ha : 0 < c.MAX_ACCELERATION) (hT : 0 < c.period)
    (hinit : (init c fd ret encoder s0).1 = true) (ops : List Op)
    (hops : issuedAtRest c ops (init c fd ret encoder s0).2) :
    |(run c ops (init c fd ret encoder s0).2).current_cmd_velocity_| ≤
      c.MAX_VELOCITY * (run c ops (init c fd ret encoder s0).2).current_speed_ / 100 := by
  have h := onCourse_velocity_bound c _
    (onCourse_run c ops _ hV ha hT hops (onCourse_init c fd ret encoder s0 hinit))
  unfold vel_max at h
  linarith

/-- C6 amended, on scenario A: a move to 10 at speed 100 issued at rest, then two
profiler steps with a feedback read in between. -/
theorem velocity_bound_witness :
    |(run scenarioConfig [Op.move 10 100 20, Op.profile true, Op.feedback 1, Op.profile true]
        (init scenarioConfig 3 0 0 constructed).2).current_cmd_velocity_| ≤
      scenarioConfig.MAX_VELOCITY *
        (run scenarioConfig [Op.move 10 100 20, Op.profile true, Op.feedback 1, Op.profile true]
          (init scenarioConfig 3 0 0 constructed).2).current_speed_ / 100 :=
  velocity_bound scenarioConfig constructed 3 0 0 (by norm_num [scenarioConfig])
    (by norm_num [scenarioConfig]) (by norm_num [scenarioConfig])
    (by simp [init, getEncoderData])
    [Op.move 10 100 20, Op.profile true, Op.feedback 1, Op.profile true]
    (by
      refine ⟨fun _ => ⟨?_, by norm_num⟩, trivial, trivial, trivial, trivial⟩
      simp [init, getEncoderData, constructed])

/-- C7 as stated fails: the move from 0 to 9/8 at speed 100, accepted at rest,
cruises at velocity 5 after two steps and reaches the target on the third, which
snaps the velocity from 5 to 0; the increment is 25 * (1/10) = 5/2. -/
theorem acceleration_bound_counterexample :
    initialState.current_cmd_velocity_ = 0 ∧
    (gripperMove scenarioConfig (9 / 8) 100 20 initialState).1 = true ∧
    ¬ (|(profilerSteps scenarioConfig 3
          (gripperMove scenarioConfig (9 / 8) 100 20 initialState).2).current_cmd_velocity_ -
        (profilerSteps scenarioConfig 2
          (gripperMove scenarioConfig (9 / 8) 100 20 initialState).2).current_cmd_velocity_| ≤
        scenarioConfig.MAX_ACCELERATION * scenarioConfig.period) := by
  norm_num [profilerSteps, Function.iterate_succ, initialState, init, constructed,
    getEncoderData, gripperMove, setGripperCommandLocked, integratePosition, rampVelocity,
    target_velocity, position_error_eq_ite, slowdown_length, cmd_vel_increment, direction, vel_max,
    scenarioConfig]

/-- C7, amended: in exact arithmetic with MAX_ACCELERATION > 0 and period > 0, in
every state, those reached during a move accepted from rest among them, a profiler
step that does not complete the move changes the commanded velocity by at most
MAX_ACCELERATION * period in absolute value.  (The step that completes the move
sets the velocity to 0 from whatever it was.) -/
theorem acceleration_bound (c : Config) (s : DensoCobottaGripper)
    (ha : 0 < c.MAX_ACCELERATION) (hT : 0 < c.period)
    (hnc : (setGripperCommandLocked c s).move_complete_ = false) :
    |(setGripperCommandLocked c s).current_cmd_velocity_ - s.current_cmd_velocity_| ≤
      c.MAX_ACCELERATION * c.period := by
  rw [(step_not_complete c s hnc).1]
  exact rampVelocity_change c s (le_of_lt (mul_pos ha hT))

/-- C7 amended, on scenario A: the first step of the move from 0 to 10. -/
theorem acceleration_bound_witness :
    |(setGripperCommandLocked scenarioConfig
        (gripperMove scenarioConfig 10 100 20 initialState).2).current_cmd_velocity_ -
      (gripperMove scenarioConfig 10 100 20 initialState).2.current_cmd_velocity_| ≤
      scenarioConfig.MAX_ACCELERATION * scenarioConfig.period :=
  acceleration_bound scenarioConfig (gripperMove scenarioConfig 10 100 20 initialState).2
    (by norm_num [scenarioConfig]) (by norm_num [scenarioConfig])
    (by norm_num [initialState, init, constructed, getEncoderData, gripperMove,
      setGripperCommandLocked, integratePosition, rampVelocity, target_velocity,
      position_error_eq_ite, slowdown_length, cmd_vel_increment, direction, vel_max, scenarioConfig])

/-- C8 as stated fails: in scenario A the state `movingState` is reached with
commanded velocity 5/2 upwards and measured position 20; the goal 0 is accepted
there, and the first profiler step, still braking the upward motion, takes the
commanded position from 20 to 161/8, away from the target, without completing. -/
theorem monotonic_progress_counterexample :
    0 < scenarioConfig.MAX_ACCELERATION ∧ 0 < scenarioConfig.period ∧
    (gripperMove scenarioConfig 0 100 20 movingState).1 = true ∧
    (setGripperCommandLocked scenarioConfig
      (gripperMove scenarioConfig 0 100 20 movingState).2).move_complete_ = false ∧
    ¬ (|(setGripperCommandLocked scenarioConfig
          (gripperMove scenarioConfig 0 100 20 movingState).2).current_cmd_position_ -
        (setGripperCommandLocked scenarioConfig
          (gripperMove scenarioConfig 0 100 20 movingState).2).current_target_position_| ≤
       |(gripperMove scenarioConfig 0 100 20 movingState).2.current_cmd_position_ -
        (gripperMove scenarioConfig 0 100 20 movingState).2.current_target_position_|) := by
  norm_num [movingState, run, applyOp, initialState, init, constructed, getEncoderData,
    gripperMove, setGripperCommand, setGripperCommandLocked, integratePosition, rampVelocity,
    target_velocity, position_error_eq_ite, slowdown_length, cmd_vel_increment, direction,
    vel_max, scenarioConfig]
  rw [abs_of_pos (by norm_num : (0 : ℚ) < 161 / 8)]
  norm_num

/-- C8, amended: in exact arithmetic with MAX_VELOCITY >= 0, MAX_ACCELERATION > 0
and period > 0, for every goal with speed >= 0 accepted by `gripperMove` in a state
whose commanded velocity is 0, and every profiler step of the run that follows with
no further request (feedback reads and profiler steps only), if `move_complete_` is
false after the step then |commanded position - target| after the step is at most
its value before the step. -/
theorem monotonic_progress (c : Config) (s : DensoCobottaGripper) (t sp e : ℚ)
    (hV : 0 ≤ c.MAX_VELOCITY) (ha : 0 < c.MAX_ACCELERATION) (hT : 0 < c.period)
    (hacc : (gripperMove c t sp e s).1 = true) (hrest : s.current_cmd_velocity_ = 0)
    (hsp : 0 ≤ sp) (ops : List Op) (hq : ∀ op ∈ ops, isQuiet op = true)
    (hnc : (setGripperCommandLocked c
      (run c ops (gripperMove c t sp e s).2)).move_complete_ = false) :
    |(setGripperCommandLocked c (run c ops (gripperMove c t sp e s).2)).current_cmd_position_ -
      (setGripperCommandLocked c
        (run c ops (gripperMove c t sp e s).2)).current_target_position_| ≤
    |(run c ops (gripperMove c t sp e s).2).current_cmd_position_ -
      (run c ops (gripperMove c t sp e s).2).current_target_position_| := by
  have hg : OnCourse c (gripperMove c t sp e s).2 := by
    rw [gripperMove_accepted c t sp e s hacc]
    exact onCourse_stored c t sp e s hV hrest hsp
  have hu := onCourse_run c ops _ hV ha hT (issuedAtRest_of_quiet c ops _ hq) hg
  have h1 := (step_onCourse c _ ha hT hu).2 hnc
  have hvm : 0 ≤ vel_max c (run c ops (gripperMove c t sp e s).2) := le_trans hu.1 hu.2.1
  have h2 := stepAdvance_nonneg c _ ha hT hvm
  unfold position_error at h1
  rw [abs_sub_comm, abs_sub_comm (run c ops (gripperMove c t sp e s).2).current_cmd_position_]
  linarith

/-- C8 amended, on scenario A: the move from 0 to 10 at speed 100, its second
profiler step, taken after a first step and a feedback read. -/
theorem monotonic_progress_witness :
    |(setGripperCommandLocked scenarioConfig (run scenarioConfig [Op.profile true, Op.feedback 1]
        (gripperMove scenarioConfig 10 100 20 initialState).2)).current_cmd_position_ -
      (setGripperCommandLocked scenarioConfig (run scenarioConfig [Op.profile true, Op.feedback 1]
        (gripperMove scenarioConfig 10 100 20 initialState).2)).current_target_position_| ≤
    |(run scenarioConfig [Op.profile true, Op.feedback 1]
        (gripperMove scenarioConfig 10 100 20 initialState).2).current_cmd_position_ -
      (run scenarioConfig [Op.profile true, Op.feedback 1]
        (gripperMove scenarioConfig 10 100 20 initialState).2).current_target_position_| :=
  monotonic_progress scenarioConfig initialState 10 100 20 (by norm_num [scenarioConfig])
    (by norm_num [scenarioConfig]) (by norm_num [scenarioConfig])
    (by norm_num [gripperMove, scenarioConfig])
    (by simp [initialState, init, getEncoderData, constructed])
    (by norm_num) [Op.profile true, Op.feedback 1] (by simp [isQuiet])
    (by norm_num [run, applyOp, initialState, init, constructed, getEncoderData,
      gripperMove, setGripperCommand, setGripperCommandLocked, integratePosition, rampVelocity,
      target_velocity, position_error_eq_ite, slowdown_length, cmd_vel_increment, direction,
      vel_max, scenarioConfig])

/-- C9: once a profiler step has reported completion, every further profiler step
with the goal unchanged yields commanded velocity 0, commanded position on the
target and `move_complete_` true again, whichever the sign of target minus start. -/
theorem profiler_idempotent (c : Config) (s0 : DensoCobottaGripper)
    (hV : 0 ≤ c.MAX_VELOCITY) (ha : 0 < c.MAX_ACCELERATION) (hT : 0 < c.period)
    (hsp : 0 ≤ s0.current_speed_)
    (hdone : (setGripperCommandLocked c s0).move_complete_ = true) (n : Nat) :
    (setGripperCommandLocked c s0).current_cmd_velocity_ = 0 ∧
    (setGripperCommandLocked c s0).current_cmd_position_ = s0.current_target_position_ ∧
    (profilerSteps c n (setGripperCommandLocked c s0)).current_cmd_velocity_ = 0 ∧
    (profilerSteps c n (setGripperCommandLocked c s0)).current_cmd_position_ =
      s0.current_target_position_ ∧
    (profilerSteps c n (setGripperCommandLocked c s0)).move_complete_ = true ∧
    (profilerSteps c n (setGripperCommandLocked c s0)).current_target_position_ =
      s0.current_target_position_ := by
  obtain ⟨d1, d2⟩ := step_complete c s0 hdone
  have hfr := setGripperCommandLocked_frame c s0
  have hvm : 0 ≤ vel_max c (setGripperCommandLocked c s0) := by
    rw [vel_max_step]
    unfold vel_max
    positivity
  obtain ⟨i1, i2, i3, i4, _⟩ :=
    profilerSteps_of_settled c (setGripperCommandLocked c s0) ha hT hvm d1
      (by rw [d2, hfr.2.1]) hdone n
  rw [hfr.2.1] at i2 i4
  exact ⟨d1, d2, i1, i2, i3, i4⟩

/-- C9 on scenario A, for both signs of target minus start: the settled state of
a move upwards (`initialState`, start = target = 0) and of a move downwards
(`settledBelow`, from 1 to 0), each stepped once and then three times more. -/
theorem profiler_idempotent_witness :
    ((profilerSteps scenarioConfig 3
        (setGripperCommandLocked scenarioConfig
          (gripperMove scenarioConfig 0 100 20 initialState).2)).current_cmd_velocity_ = 0 ∧
      (profilerSteps scenarioConfig 3
        (setGripperCommandLocked scenarioConfig
          (gripperMove scenarioConfig 0 100 20 initialState).2)).move_complete_ = true) ∧
    ((profilerSteps scenarioConfig 3
        (setGripperCommandLocked scenarioConfig settledBelow)).current_cmd_position_ =
          settledBelow.current_target_position_ ∧
      (profilerSteps scenarioConfig 3
        (setGripperCommandLocked scenarioConfig settledBelow)).move_complete_ = true) :=
  have hup := profiler_idempotent scenarioConfig
    (gripperMove scenarioConfig 0 100 20 initialState).2
    (by norm_num [scenarioConfig]) (by norm_num [scenarioConfig]) (by norm_num [scenarioConfig])
    (by norm_num [gripperMove, scenarioConfig])
    (by norm_num [initialState, init, constructed, getEncoderData, gripperMove,
      setGripperCommandLocked, integratePosition, rampVelocity, target_velocity,
      position_error_eq_ite, slowdown_length, cmd_vel_increment, direction, vel_max,
      scenarioConfig]) 3
  have hdown := profiler_idempotent scenarioConfig settledBelow
    (by norm_num [scenarioConfig]) (by norm_num [scenarioConfig]) (by norm_num [scenarioConfig])
    (by norm_num [settledBelow])
    (by norm_num [settledBelow, setGripperCommandLocked, integratePosition, rampVelocity,
      target_velocity, position_error_eq_ite, slowdown_length, cmd_vel_increment, direction,
      vel_max, scenarioConfig]) 3
  ⟨⟨hup.2.2.1, hup.2.2.2.2.1⟩, ⟨hdown.2.2.2.1, hdown.2.2.2.2.1⟩⟩

/-- C10: in exact arithmetic with MAX_VELOCITY > 0, MAX_ACCELERATION > 0 and
period > 0, every goal with speed > 0 accepted by `gripperMove` in a state whose
commanded velocity is 0 is completed after some finite number n >= 1 of profiler
steps: after the n-th step `move_complete_` is true, the commanded position is
exactly the target and the commanded velocity is 0, `move_complete_` is false
before the n-th step, and n = 1 when the target is the current position. -/
theorem move_from_rest_completes (c : Config) (s : DensoCobottaGripper) (t sp e : ℚ)
    (hV : 0 < c.MAX_VELOCITY) (ha : 0 < c.MAX_ACCELERATION) (hT : 0 < c.period)
    (hsp : 0 < sp) (hacc : (gripperMove c t sp e s).1 = true)
    (hrest : s.current_cmd_velocity_ = 0) :
    ∃ n, 1 ≤ n ∧
      (profilerSteps c n (gripperMove c t sp e s).2).move_complete_ = true ∧
      (profilerSteps c n (gripperMove c t sp e s).2).current_cmd_position_ = t ∧
      (profilerSteps c n (gripperMove c t sp e s).2).current_cmd_velocity_ = 0 ∧
      (∀ j, j < n → (profilerSteps c j (gripperMove c t sp e s).2).move_complete_ = false) ∧
      (t = s.current_position_ → n = 1) := by
  have hgeq := gripperMove_accepted c t sp e s hacc
  have hg : OnCourse c (gripperMove c t sp e s).2 := by
    rw [hgeq]
    exact onCourse_stored c t sp e s (le_of_lt hV) hrest (le_of_lt hsp)
  have htg : (gripperMove c t sp e s).2.current_target_position_ = t := by rw [hgeq]
  have hmc : (gripperMove c t sp e s).2.move_complete_ = false := by rw [hgeq]
  have hpos : (gripperMove c t sp e s).2.current_cmd_position_ = s.current_position_ := by
    rw [hgeq]
  have hvm : 0 < vel_max c (gripperMove c t sp e s).2 := by
    rw [hgeq]
    unfold vel_max
    simp only
    positivity
  have hadv := stepAdvance_pos c _ ha hT hvm
  -- the number of advances that cover the distance: none if the target is the
  -- current position
  have hk : ∃ k : Nat, position_error (gripperMove c t sp e s).2 ≤
      k * stepAdvance c (gripperMove c t sp e s).2 ∧ (t = s.current_position_ → k = 0) := by
    by_cases heq : t = s.current_position_
    · refine ⟨0, ?_, fun _ => rfl⟩
      unfold position_error
      rw [htg, hpos, heq]
      simp
    · obtain ⟨k, hk⟩ := exists_nat_ge
        (position_error (gripperMove c t sp e s).2 / stepAdvance c (gripperMove c t sp e s).2)
      exact ⟨k, (div_le_iff₀ hadv).1 hk, fun h => absurd h heq⟩
  obtain ⟨k, hk1, hk2⟩ := hk
  obtain ⟨n, n1, n2, n3, n4, n5, n6⟩ := completes_within c ha hT k _ hg hadv hk1
  refine ⟨n, n1, n3, by rw [n5, htg], n4, ?_, fun heq => ?_⟩
  · intro j hj
    by_cases hj0 : j = 0
    · rw [hj0, profilerSteps_zero]; exact hmc
    · exact n6 j (by omega) hj
  · have := hk2 heq
    omega

/-- C10 on the spec's scenario A: start 0, target 10, maximum velocity 5, maximum
acceleration 25, period 1/10, speed 100. -/
theorem move_from_rest_completes_witness :
    ∃ n, 1 ≤ n ∧
      (profilerSteps scenarioConfig n
        (gripperMove scenarioConfig 10 100 20 initialState).2).move_complete_ = true ∧
      (profilerSteps scenarioConfig n
        (gripperMove scenarioConfig 10 100 20 initialState).2).current_cmd_position_ = 10 ∧
      (profilerSteps scenarioConfig n
        (gripperMove scenarioConfig 10 100 20 initialState).2).current_cmd_velocity_ = 0 ∧
      (∀ j, j < n → (profilerSteps scenarioConfig j
        (gripperMove scenarioConfig 10 100 20 initialState).2).move_complete_ = false) ∧
      ((10 : ℚ) = initialState.current_position_ → n = 1) :=
  move_from_rest_completes scenarioConfig initialState 10 100 20
    (by norm_num [scenarioConfig]) (by norm_num [scenarioConfig]) (by norm_num [scenarioConfig])
    (by norm_num) (by norm_num [gripperMove, scenarioConfig])
    (by simp [initialState, init, getEncoderData, constructed])

end denso_cobotta_gripper
